import Mathlib

/-!
Verification development for the GitGo git-automation tool
(`gitgov1.py`, repository `sployal/git_automation_script`).

The relevant Python functions are shallowly embedded as executable Lean
definitions.  Python strings are modelled as Lean `String` (the tool only
handles ASCII labels, repository names and command output); Python's
`str.strip` / `str.lower` / `int(...)` are embedded explicitly below so that
their behaviour on the inputs of interest is exactly that of CPython on
ASCII text.  Interactive prompts are modelled by consuming a list of
pending input lines (an empty list means the user supplies no further
input), file systems by association lists from path to content, and the
process environment by a partial map from variable name to value.
-/

namespace GitGo

/-- Drop leading and trailing whitespace from a character list. -/
def strip_list (l : List Char) : List Char :=
  ((l.dropWhile Char.isWhitespace).reverse.dropWhile Char.isWhitespace).reverse

/-- CPython `str.strip()` on ASCII text: drop leading and trailing
whitespace characters. -/
def py_strip (s : String) : String :=
  String.mk (strip_list s.data)

/-- CPython `str.lower()` on ASCII text: map each character to lower case. -/
def py_lower (s : String) : String :=
  String.mk (s.data.map Char.toLower)

/-- Value of a list of ASCII digits read as a decimal numeral. -/
def digits_value (l : List Char) : Nat :=
  l.foldl (fun acc c => 10 * acc + (c.toNat - '0'.toNat)) 0

/-- CPython `int(s)` restricted to ASCII input: strip whitespace, then an
optional sign followed by at least one decimal digit; anything else raises
`ValueError`, modelled as `none`. -/
def py_int (s : String) : Option Int :=
  match (py_strip s).data with
  | [] => none
  | '-' :: ds =>
      if ds ≠ [] ∧ ds.all Char.isDigit then some (-(digits_value ds : Int))
      else none
  | '+' :: ds =>
      if ds ≠ [] ∧ ds.all Char.isDigit then some (digits_value ds : Int)
      else none
  | ds =>
      if ds.all Char.isDigit then some (digits_value ds : Int) else none

/-!
## SSH provisioning (`generate_github_ssh_keys_and_config`)
-/

/-- The account-count prompt loop of `generate_github_ssh_keys_and_config`
(lines 50–57): repeatedly read a line, parse it with `int(...)`
(`ValueError` re-prompts), accept the value iff `1 <= count <= 3`,
otherwise print an error and re-prompt.  The list holds the pending input
lines; `none` means the input was exhausted before a valid count arrived. -/
def read_account_count : List String → Option Int
  | [] => none
  | s :: rest =>
      match py_int s with
      | some n => if 1 ≤ n ∧ n ≤ 3 then some n else read_account_count rest
      | none => read_account_count rest

/-- The per-account iteration space of the provisioning loop:
`for i in range(1, count + 1)` (line 59). -/
def account_setup_iterations (count : Int) : List Int :=
  (List.range count.toNat).map (fun i => Int.ofNat (i + 1))

/-- A character kept verbatim by the alias derivation: the regex class
`[a-z0-9]` of `re.sub(r'[^a-z0-9]', '_', ...)` (line 71). -/
def alias_keep (c : Char) : Bool :=
  ('a' ≤ c ∧ c ≤ 'z') ∨ ('0' ≤ c ∧ c ≤ '9')

/-- `re.sub(r'[^a-z0-9]', '_', s)`: replace every character outside
`[a-z0-9]` by an underscore. -/
def alias_sub (s : String) : String :=
  String.mk (s.data.map (fun c => if alias_keep c then c else '_'))

/-- Alias derivation of the provisioning loop (line 71):
`"github-" + re.sub(r'[^a-z0-9]', '_', account_type.lower().strip())`. -/
def derive_alias (label : String) : String :=
  "github-" ++ alias_sub (py_strip (py_lower label))

/-- Modelled from the spec (§4.2, the wording of the claim):
`alias = "github-" + lowercase(label) with every character outside [a-z0-9]
replaced by "_"` — the same derivation but without the `strip()` the code
performs. -/
def spec_alias (label : String) : String :=
  "github-" ++ alias_sub (py_lower label)

/-- The aliases produced by one provisioning run when the user enters the
given labels: the loop body appends one record per label with no
uniqueness check (lines 59–144). -/
def provision_aliases (labels : List String) : List String :=
  labels.map derive_alias

/-- Does a string match `^github-[a-z0-9_]+$`?  (Decidable, character by
character: the prefix `github-` followed by a nonempty run of
`[a-z0-9_]`.) -/
def alias_regex_match (s : String) : Bool :=
  match s.data with
  | 'g' :: 'i' :: 't' :: 'h' :: 'u' :: 'b' :: '-' :: rest =>
      rest ≠ [] ∧ rest.all (fun c => alias_keep c ∨ c = '_')
  | _ => false

/-- Derived SSH key file name for an alias: `f"id_ed25519_{alias}"`
(line 72). -/
def key_file_name (a : String) : String :=
  "id_ed25519_" ++ a

/-- A file system as an association list from path to file content. -/
abbrev FS := List (String × String)

/-- The key-generation step of the provisioning loop (lines 76–93):
if a file already exists at `key_path` it is skipped (`⚠️ Key already
exists. Skipping generation.`), otherwise `ssh-keygen` writes a fresh key.
Returns the resulting file system and whether generation was skipped. -/
def key_gen_step (fs : FS) (key_path : String) (new_key : String) :
    FS × Bool :=
  if (fs.lookup key_path).isSome then (fs, true)
  else (fs ++ [(key_path, new_key)], false)

/-!
## Git command runner (`GitGo.run_git_command`, lines 571–577)
-/

/-- Outcome of one `subprocess.run(['git'] + cmd, capture_output=True,
text=True)` invocation: the captured streams and the exit code. -/
structure ProcResult where
  stdout : String
  stderr : String
  returncode : Int
deriving DecidableEq, Repr

/-- `GitGo.run_git_command(cmd, check)` (lines 571–577), given the outcome
of the underlying git process.  With `check=True` a non-zero exit raises
`subprocess.CalledProcessError`, which the `except` branch turns into the
triple `(e.stdout, e.stderr, e.returncode)` — the raw captured streams.
On the non-raising path the triple is
`(result.stdout.strip(), result.stderr.strip(), result.returncode)`.
Either way the caller receives a triple; no exception escapes. -/
def run_git_command (res : ProcResult) (check : Bool) :
    String × String × Int :=
  if check ∧ res.returncode ≠ 0 then
    (res.stdout, res.stderr, res.returncode)
  else
    (py_strip res.stdout, py_strip res.stderr, res.returncode)

/-!
## Account store (`GitGo.load_github_accounts`, lines 277–291)
-/

/-- A JSON value, as returned by Python's `json.load`. -/
inductive JValue where
  | null : JValue
  | bool (b : Bool) : JValue
  | num (n : Int) : JValue
  | str (s : String) : JValue
  | arr (l : List JValue) : JValue
  | obj (l : List (String × JValue)) : JValue

/-- What reading and `json.load`-ing the accounts file can yield: the file
is absent, the file exists but `json.load` (or the read) raises, or the
file parses to a JSON value. -/
inductive AccountsFileRead where
  | absent : AccountsFileRead
  | unparsable : AccountsFileRead
  | parsed (v : JValue) : AccountsFileRead

/-- `GitGo.load_github_accounts` (lines 277–291): if the accounts file
exists, `json.load` it and return the result as-is; any exception prints a
warning and yields `[]`; an absent file prints a warning and yields `[]`.
Returns the loaded value together with whether a warning was printed.
No field validation of the parsed records is performed. -/
def load_github_accounts : AccountsFileRead → JValue × Bool
  | .absent => (.arr [], true)
  | .unparsable => (.arr [], true)
  | .parsed v => (v, false)

/-!
## Menu and dispatcher (`GitGo.__init__`, `get_action_input`, `run`)
-/

/-- `self.valid_actions` (lines 267–271). -/
def valid_actions : List String :=
  ["clone", "push", "pull", "adduser", "showuser", "addremote",
   "delremote", "remotelist", "status", "commit", "history", "tokeninfo",
   "setup", "branch", "remotem", "changename", "help"]

/-- `self.numbered_actions` (line 272): `str(i+1)` mapped to the i-th
action. -/
def numbered_actions : List (String × String) :=
  valid_actions.enum.map (fun p => (toString (p.1 + 1), p.2))

/-- Result of `get_action_input`: the user quit with `q`, or a valid
action name was resolved. -/
inductive ActionInput where
  | quit : ActionInput
  | action (a : String) : ActionInput
deriving DecidableEq, Repr

/-- `GitGo.get_action_input` (lines 939–955): loop reading
`input(...).strip().lower()`; `q` exits with code 0, a valid action name
or a valid number is returned, anything else re-prompts.  `none` models
exhausted input. -/
def get_action_input : List String → Option ActionInput
  | [] => none
  | s :: rest =>
      let u := py_lower (py_strip s)
      if u = "q" then some .quit
      else if u ∈ valid_actions then some (.action u)
      else
        match numbered_actions.lookup u with
        | some a => some (.action a)
        | none => get_action_input rest

/-- What the dispatch ladder of `GitGo.run` (lines 1530–1570) does with a
resolved action: call a named handler, or print the `Invalid action`
message (the final `else`). -/
inductive Dispatch where
  | handler (name : String) : Dispatch
  | invalid : Dispatch
deriving DecidableEq, Repr

/-- The `if/elif` dispatch ladder of `GitGo.run` (lines 1530–1570), in
source order.  Note there is no branch for `"remotem"`. -/
def dispatch (action : String) : Dispatch :=
  if action = "setup" then .handler "setup_menu"
  else if action = "clone" then .handler "handle_clone"
  else if action = "push" then .handler "handle_push"
  else if action = "pull" then .handler "handle_pull"
  else if action = "adduser" then .handler "handle_adduser"
  else if action = "showuser" then .handler "handle_showuser"
  else if action = "addremote" then .handler "handle_addremote"
  else if action = "delremote" then .handler "handle_delremote"
  else if action = "remotelist" then .handler "handle_remotelist"
  else if action = "status" then .handler "get_git_repository_info"
  else if action = "commit" then .handler "invoke_git_commit"
  else if action = "history" then .handler "show_git_history"
  else if action = "tokeninfo" then .handler "test_github_token_scopes"
  else if action = "branch" then .handler "handle_branch"
  else if action = "changename" then .handler "handle_changename"
  else if action = "help" then .handler "handle_help"
  else .invalid

/-!
## Token resolution and a single `run` invocation
-/

/-- One stored account record (the fields of `accounts.json` written by
provisioning, lines 136–144). -/
structure Account where
  id : String
  name : String
  sshAlias : String
  githubUser : String
  email : String
  localGitUser : String
  tokenEnvVar : String
deriving DecidableEq, Repr

/-- The process environment: variable name to value, absent means unset. -/
abbrev Env := List (String × String)

/-- `GitGo.get_github_token` (lines 360–371): read
`os.environ.get(account['tokenEnvVar'])`; `if not token:` (unset or empty)
print the missing-token message with guidance to run
`python gitgo.py setup` and raise `ValueError`; otherwise return the
token.  `Except.error` models the raised `ValueError` (whose message the
caller prints). -/
def get_github_token (env : Env) (acct : Account) : Except String String :=
  match env.lookup acct.tokenEnvVar with
  | none => .error ("Missing GitHub token for " ++ acct.name ++ " account")
  | some t =>
      if t = "" then
        .error ("Missing GitHub token for " ++ acct.name ++ " account")
      else .ok t

/-- `GitGo.select_github_account` (lines 293–316): with no accounts,
return `None`; otherwise loop reading `int(input)` until it lies in
`1..len(accounts)` and return that account. -/
def select_github_account (accounts : List Account) :
    List String → Option Account
  | [] => none
  | s :: rest =>
      if accounts = [] then none
      else
        match py_int s with
        | some n =>
            if 1 ≤ n ∧ n ≤ (accounts.length : Int) then
              accounts.get? (n - 1).toNat
            else select_github_account accounts rest
        | none => select_github_account accounts rest

/-- Actions for which `GitGo.run` resolves an account and a token before
dispatching (line 1509). -/
def token_requiring_actions : List String :=
  ["clone", "push", "addremote", "delremote", "remotelist", "tokeninfo"]

/-- Observable outcome of one no-argument invocation of `GitGo.run`
(lines 1489–1570).  `run` displays the menu once, resolves one action,
optionally resolves an account and token, executes at most one dispatch,
and returns — after which the process ends (exit status 0). -/
structure RunResult where
  /-- How many times the action menu was displayed (`display_actions_menu`). -/
  menuDisplays : Nat
  /-- Missing-token message with `setup` guidance printed. -/
  tokenErrorReported : Bool
  /-- The dispatch performed, if any. -/
  dispatched : Option Dispatch
  /-- `True` iff `run` returned (and with it the process, exit status 0);
  `False` models exhausted input while a prompt was still blocking. -/
  terminated : Bool
deriving DecidableEq, Repr

/-- One no-argument invocation of `GitGo.run` (lines 1489–1570):
display the menu, read one action via `get_action_input` on
`menuInputs`, for a token-requiring action select an account (consuming
`acctInputs`) and resolve its token (a `ValueError` is caught, printed,
and `run` returns), then execute the single dispatch ladder and return.
There is no loop around any of this: one action per process. -/
def run_gitgo (env : Env) (accounts : List Account)
    (menuInputs acctInputs : List String) : RunResult :=
  match get_action_input menuInputs with
  | none => ⟨1, false, none, false⟩
  | some .quit => ⟨1, false, none, true⟩
  | some (.action a) =>
      if a ∈ token_requiring_actions then
        match select_github_account accounts acctInputs with
        | none =>
            if accounts = [] then ⟨1, false, none, true⟩
            else ⟨1, false, none, false⟩
        | some acct =>
            match get_github_token env acct with
            | .error _ => ⟨1, true, none, true⟩
            | .ok _ => ⟨1, false, some (dispatch a), true⟩
      else ⟨1, false, some (dispatch a), true⟩

/-!
## Push handler: identity and remote preparation
(`GitGo.handle_push`, lines 1055–1087)
-/

/-- The local git configuration state that the push handler reads and
writes.  `userName`/`userEmail` are `none` when `git config` exits
non-zero (value unset); `remotes` is the list of configured remote names
(the stdout of `git remote` is their newline join); `originUrl` is
`remote.origin.url` when set. -/
structure GitState where
  userName : Option String
  userEmail : Option String
  remotes : List String
  originUrl : Option String
deriving DecidableEq, Repr

/-- Stdout of `git remote`: the configured remote names, one per line. -/
def remotes_output (remotes : List String) : String :=
  String.intercalate "\n" remotes

/-- Does `p` occur as a contiguous run inside `l`? -/
def occurs_in (p : List Char) : List Char → Bool
  | [] => p.isEmpty
  | c :: t => p.isPrefixOf (c :: t) || occurs_in p t

/-- Python's `'origin' in remotes` (line 1075): substring containment on
the joined output, not membership in the remote-name list. -/
def origin_in_output (s : String) : Bool :=
  occurs_in "origin".data s.data

/-- The remote URL the push handler builds (line 1055):
`f"git@{ssh_alias}:{github_user}/{repo_name}.git"`. -/
def push_remote_url (ssh_alias github_user repo_name : String) : String :=
  "git@" ++ ssh_alias ++ ":" ++ github_user ++ "/" ++ repo_name ++ ".git"

/-- `git remote add origin url`: appends the remote (it cannot already
exist on this path, the handler only runs it when the substring test
failed). -/
def git_remote_add_origin (st : GitState) (url : String) : GitState :=
  { st with remotes := st.remotes ++ ["origin"], originUrl := some url }

/-- `git remote set-url origin url` run through `run_git_command`: updates
the URL when an `origin` remote exists, otherwise git fails and the state
is unchanged (the handler ignores the returned error). -/
def git_remote_set_url_origin (st : GitState) (url : String) : GitState :=
  if "origin" ∈ st.remotes then { st with originUrl := some url } else st

/-- `git config user.name` / `user.email` as observed through
`run_git_command(..., check=False)`: exit 1 and empty stdout when unset,
else the stripped value. -/
def config_get (v : Option String) : String × Int :=
  match v with
  | none => ("", 1)
  | some s => (py_strip s, 0)

/-- The `user.name` block of `handle_push` (lines 1058–1063): set it to
`github_user` iff `git config user.name` exited non-zero or its stripped
output is empty; never touch an existing non-blank value. -/
def ensure_user_name (st : GitState) (github_user : String) : GitState :=
  if (config_get st.userName).2 ≠ 0 ∨ py_strip (config_get st.userName).1 = ""
  then { st with userName := some github_user }
  else st

/-- The `user.email` block of `handle_push` (lines 1066–1071). -/
def ensure_user_email (st : GitState) (git_email : String) : GitState :=
  if (config_get st.userEmail).2 ≠ 0 ∨ py_strip (config_get st.userEmail).1 = ""
  then { st with userEmail := some git_email }
  else st

/-- The string the push handler's line 1074 receives from
`run_git_command(['remote'], check=False)`: the remote listing, stripped
by the runner's success path. -/
def remote_listing (st : GitState) : String :=
  (run_git_command ⟨remotes_output st.remotes, "", 0⟩ false).1

/-- The string line 1080 receives from
`run_git_command(['config', '--get', 'remote.origin.url'], check=False)`:
the configured origin URL (stripped), or `""` when unset (git exits 1
with empty stdout). -/
def origin_url_reading (st : GitState) : String :=
  (run_git_command
    ⟨(config_get st.originUrl).1, "", (config_get st.originUrl).2⟩ false).1

/-- The remote-setup block of `handle_push` (lines 1073–1083):
read `git remote`; if the string `'origin'` is not contained in that
output, `git remote add origin remote_url`; otherwise read
`remote.origin.url` (empty string when unset) and, when it differs from
`remote_url`, `git remote set-url origin remote_url`. -/
def push_remote_setup (st : GitState) (remote_url : String) : GitState :=
  if ¬ origin_in_output (remote_listing st) then
    git_remote_add_origin st remote_url
  else if origin_url_reading st ≠ remote_url then
    git_remote_set_url_origin st remote_url
  else st

/-- Lines 1055–1083 of `handle_push` in order: build the remote URL,
ensure `user.name`, ensure `user.email`, then prepare the `origin`
remote.  All of this happens before the `git push` at line 1093. -/
def push_prepare (st : GitState)
    (ssh_alias github_user git_email repo_name : String) : GitState :=
  push_remote_setup
    (ensure_user_email (ensure_user_name st github_user) git_email)
    (push_remote_url ssh_alias github_user repo_name)

/-!
## Keyboard interrupts at prompts (`safe_input`, `handle_pull`)
-/

/-- One event at an interactive prompt: the user enters a line, or hits
Ctrl-C (`KeyboardInterrupt`). -/
inductive InEvent where
  | line (s : String) : InEvent
  | interrupt : InEvent
deriving DecidableEq, Repr

/-- What a single prompt produces for its caller. -/
inductive PromptResult where
  | ok (s : String) : PromptResult
  | farewellExit0 : PromptResult
  | uncaughtInterrupt : PromptResult
deriving DecidableEq, Repr

/-- `safe_input` (lines 22–27): a `KeyboardInterrupt` is caught, the
farewell `👋 Exiting GitGo. Goodbye!` is printed, and the process exits
with status 0. -/
def safe_input : InEvent → PromptResult
  | .line s => .ok s
  | .interrupt => .farewellExit0

/-- A bare `input(...)` call (as at line 1144 of `handle_pull`): a
`KeyboardInterrupt` propagates to the caller — nothing in `handle_pull`,
`run`, or the `__main__` block catches it, so it surfaces as a raw
traceback and a non-zero exit status. -/
def raw_input : InEvent → PromptResult
  | .line s => .ok s
  | .interrupt => .uncaughtInterrupt

/-- Outcome of the uncommitted-changes choice loop in `handle_pull`. -/
inductive PullChoice where
  | stashAndPull : PullChoice
  | continueWithChanges : PullChoice
  | cancelled : PullChoice
  | uncaughtInterrupt : PullChoice
  | inputExhausted : PullChoice
deriving DecidableEq, Repr

/-- The `while not valid_choice` loop of `handle_pull` (lines 1142–1159).
The prompt at line 1144 is the bare `input("Enter your choice (1-3): ")`,
not `safe_input`. -/
def pull_choice_loop : List InEvent → PullChoice
  | [] => .inputExhausted
  | e :: rest =>
      match raw_input e with
      | .ok s =>
          let c := py_strip s
          if c = "1" then .stashAndPull
          else if c = "2" then .continueWithChanges
          else if c = "3" then .cancelled
          else pull_choice_loop rest
      | .farewellExit0 => .uncaughtInterrupt
      | .uncaughtInterrupt => .uncaughtInterrupt

/-!
## Repository-name validation in `handle_addremote` (lines 1237–1258)
-/

/-- One character of the class `[a-zA-Z0-9._-]`. -/
def repo_name_char (c : Char) : Bool :=
  ('a' ≤ c ∧ c ≤ 'z') ∨ ('A' ≤ c ∧ c ≤ 'Z') ∨ ('0' ≤ c ∧ c ≤ '9') ∨
    c = '.' ∨ c = '_' ∨ c = '-'

/-- The name check at line 1241:
`re.match(r'^[a-zA-Z0-9._-]+$', repo_name) and len(repo_name) <= 100`.
(The input is `strip`ped before the check, so `$` cannot fire on a
trailing newline; matching is plain anchored character-class matching.) -/
def valid_repo_name (s : String) : Bool :=
  s.data ≠ [] ∧ s.data.all repo_name_char ∧ s.length ≤ 100

/-- What the availability `GET /repos/{user}/{name}` returns, per name:
the HTTP status code, or a raised `RequestException`. -/
inductive ApiReply where
  | status (code : Nat) : ApiReply
  | requestError : ApiReply
deriving DecidableEq, Repr

/-- The `while name_taken` loop of `handle_addremote` (lines 1237–1258):
strip the entered name; if it fails the format check, print the invalid
message and re-prompt with no API call; otherwise issue the availability
GET: 200 (taken) and every non-404 status or network error re-prompt,
404 accepts the name.  Returns the accepted name (if any) and the list of
names for which an availability request was issued, in order. -/
def addremote_name_loop (api : String → ApiReply) :
    List String → Option String × List String
  | [] => (none, [])
  | s :: rest =>
      let name := py_strip s
      if valid_repo_name name then
        match api name with
        | .status code =>
            if code = 200 then
              let r := addremote_name_loop api rest
              (r.1, name :: r.2)
            else if code = 404 then (some name, [name])
            else
              let r := addremote_name_loop api rest
              (r.1, name :: r.2)
        | .requestError =>
            let r := addremote_name_loop api rest
            (r.1, name :: r.2)
      else addremote_name_loop api rest

/-- A sample availability environment: exactly the repository name
`"demo"` is free (404), every other name already exists (200). -/
def demo_api : String → ApiReply :=
  fun n => if n = "demo" then .status 404 else .status 200

/-!
## Supporting lemmas
-/

/-- Dropping a satisfied run twice is the same as dropping it once. -/
theorem dropWhile_idem {α : Type} (p : α → Bool) (l : List α) :
    (l.dropWhile p).dropWhile p = l.dropWhile p := by
  cases h : l.dropWhile p with
  | nil => rfl
  | cons a t =>
      have ha : p a = false := by
        have hne : l.dropWhile p ≠ [] := by simp [h]
        have := List.head_dropWhile_not p l hne
        simpa [h] using this
      simp [List.dropWhile_cons_of_neg, ha]

/-- A front part of a `dropWhile p`-fixed list is itself fixed. -/
theorem dropWhile_fix_of_front {α : Type} {p : α → Bool} {m g : List α}
    (hm : m.dropWhile p = m) (hg : List.IsPrefix g m) :
    g.dropWhile p = g := by
  cases g with
  | nil => rfl
  | cons a t =>
      obtain ⟨k, hk⟩ := hg
      have ha : p a = false := by
        by_contra hpa
        have hpa' : p a = true := by
          cases hb : p a with
          | false => exact absurd hb hpa
          | true => rfl
        rw [← hk] at hm
        rw [List.cons_append, List.dropWhile_cons_of_pos hpa'] at hm
        have hlen := (List.dropWhile_sublist (l := t ++ k) p).length_le
        rw [hm] at hlen
        simp at hlen
      simp [List.dropWhile_cons_of_neg, ha]

/-- Whitespace-stripping a character list is idempotent. -/
theorem strip_list_idem (l : List Char) :
    strip_list (strip_list l) = strip_list l := by
  unfold strip_list
  have hFm : (l.dropWhile Char.isWhitespace).dropWhile Char.isWhitespace =
      l.dropWhile Char.isWhitespace := dropWhile_idem _ _
  have hgm : List.IsPrefix
      (((l.dropWhile Char.isWhitespace).reverse.dropWhile
          Char.isWhitespace).reverse)
      (l.dropWhile Char.isWhitespace) := by
    have h1 := List.dropWhile_suffix
      (l := (l.dropWhile Char.isWhitespace).reverse) Char.isWhitespace
    have h2 := @List.reverse_prefix Char
      ((l.dropWhile Char.isWhitespace).reverse.dropWhile Char.isWhitespace)
      ((l.dropWhile Char.isWhitespace).reverse)
    rw [List.reverse_reverse] at h2
    exact h2.mpr h1
  rw [dropWhile_fix_of_front hFm hgm]
  rw [List.reverse_reverse, dropWhile_idem]

/-- `str.strip()` is idempotent. -/
theorem py_strip_idem (s : String) : py_strip (py_strip s) = py_strip s := by
  unfold py_strip
  exact congrArg String.mk (strip_list_idem s.data)

/-- `ensure_user_name` touches only the `userName` field. -/
theorem ensure_user_name_fields (st : GitState) (u : String) :
    (ensure_user_name st u).remotes = st.remotes ∧
    (ensure_user_name st u).originUrl = st.originUrl ∧
    (ensure_user_name st u).userEmail = st.userEmail := by
  unfold ensure_user_name
  split <;> exact ⟨rfl, rfl, rfl⟩

/-- `ensure_user_email` touches only the `userEmail` field. -/
theorem ensure_user_email_fields (st : GitState) (e : String) :
    (ensure_user_email st e).remotes = st.remotes ∧
    (ensure_user_email st e).originUrl = st.originUrl ∧
    (ensure_user_email st e).userName = st.userName := by
  unfold ensure_user_email
  split <;> exact ⟨rfl, rfl, rfl⟩

/-- The remote-setup block never touches the identity fields. -/
theorem push_remote_setup_identity (st : GitState) (url : String) :
    (push_remote_setup st url).userName = st.userName ∧
    (push_remote_setup st url).userEmail = st.userEmail := by
  unfold push_remote_setup git_remote_add_origin git_remote_set_url_origin
  split
  · exact ⟨rfl, rfl⟩
  · split
    · split <;> exact ⟨rfl, rfl⟩
    · exact ⟨rfl, rfl⟩

/-- `remote_listing` depends only on the remote-name list. -/
theorem remote_listing_congr {st st' : GitState}
    (h : st.remotes = st'.remotes) :
    remote_listing st = remote_listing st' := by
  unfold remote_listing
  rw [h]

/-- `origin_url_reading` depends only on the configured origin URL. -/
theorem origin_url_reading_congr {st st' : GitState}
    (h : st.originUrl = st'.originUrl) :
    origin_url_reading st = origin_url_reading st' := by
  unfold origin_url_reading
  rw [h]

/-!
## Claims
-/

/-- C1 (counterexample): with the token environment variable unset, one
invocation of `run` on the token-requiring `tokeninfo` action reports the
missing token and then returns, terminating the process, with the menu
displayed exactly once and the next pending action (`status`) never
dispatched — the claim's "continues the menu loop and accepts further
actions rather than terminating the process" is false: `run` handles a
single action and has no menu loop. -/
theorem c1_counterexample :
    run_gitgo [] [⟨"github-work", "work", "github-work", "davidm", "d@x.com",
        "davidm", "GITHUB_GITHUB_WORK_TOKEN"⟩]
      ["tokeninfo", "status"] ["1"] = ⟨1, true, none, true⟩ := by decide

/-- C1 (amended): for every token-requiring action, if the selected
account's token environment variable is missing or empty, token
resolution reports the missing token with guidance to run setup and the
current action's handler is never invoked; `run` then returns and the
process terminates normally — there is no menu loop, so no further
actions are accepted. -/
theorem c1_missing_token_aborts
    (env : Env) (accounts : List Account) (menuInputs acctInputs : List String)
    (a : String) (acct : Account)
    (ha : get_action_input menuInputs = some (.action a))
    (hreq : a ∈ token_requiring_actions)
    (hsel : select_github_account accounts acctInputs = some acct)
    (htok : env.lookup acct.tokenEnvVar = none ∨
      env.lookup acct.tokenEnvVar = some "") :
    run_gitgo env accounts menuInputs acctInputs = ⟨1, true, none, true⟩ := by
  rcases htok with h | h <;>
    simp [run_gitgo, ha, hreq, hsel, get_github_token, h]

/-- C1 (witness): the amended theorem applied to a concrete account with
an unset token variable and the `tokeninfo` action. -/
theorem c1_missing_token_aborts_witness :
    get_action_input ["tokeninfo"] =
      some (.action "tokeninfo") ∧
    "tokeninfo" ∈ token_requiring_actions ∧
    select_github_account
      [⟨"github-work", "work", "github-work", "davidm", "d@x.com", "davidm",
        "GITHUB_GITHUB_WORK_TOKEN"⟩] ["1"] =
      some ⟨"github-work", "work", "github-work", "davidm", "d@x.com",
        "davidm", "GITHUB_GITHUB_WORK_TOKEN"⟩ ∧
    ([] : Env).lookup "GITHUB_GITHUB_WORK_TOKEN" = none ∧
    run_gitgo []
      [⟨"github-work", "work", "github-work", "davidm", "d@x.com", "davidm",
        "GITHUB_GITHUB_WORK_TOKEN"⟩] ["tokeninfo"] ["1"] =
      ⟨1, true, none, true⟩ :=
  ⟨by decide, by decide, by decide, by decide,
   c1_missing_token_aborts []
     [⟨"github-work", "work", "github-work", "davidm", "d@x.com", "davidm",
       "GITHUB_GITHUB_WORK_TOKEN"⟩] ["tokeninfo"] ["1"] "tokeninfo"
     ⟨"github-work", "work", "github-work", "davidm", "d@x.com", "davidm",
       "GITHUB_GITHUB_WORK_TOKEN"⟩
     (by decide) (by decide) (by decide) (Or.inl (by decide))⟩

/-- C2: `remotem` is in the menu's action list and is accepted by the
input reader both by name and by its 1-based index `15`, yet the dispatch
ladder of `run` reports it as invalid — and it is the only listed action
the dispatcher fails to route to a handler, contradicting the in-program
help text (`15. remotem → Manage remote for current repository`). -/
theorem c2_remotem_not_dispatched :
    "remotem" ∈ valid_actions ∧
    get_action_input ["remotem"] = some (.action "remotem") ∧
    get_action_input ["15"] = some (.action "remotem") ∧
    valid_actions.filter (fun a => decide (dispatch a = .invalid)) =
      ["remotem"] := by decide

/-- C3 (counterexample): with `check` true and a failing git process
whose captured stdout is `"out\n"`, the caller receives the raw `"out\n"`,
whereas the success path post-processes the same captured stream to
`"out"` — the streams are not identically post-processed, contrary to the
claim. -/
theorem c3_counterexample :
    run_git_command ⟨"out\n", "", 1⟩ true = ("out\n", "", 1) ∧
    run_git_command ⟨"out\n", "", 0⟩ true = ("out", "", 0) ∧
    ("out\n" : String) ≠ "out" := by decide

/-- C3 (amended): `run_git_command` always returns a
(stdout, stderr, exit code) triple with the true exit code and no
exception path: when `check` is true and the process exits non-zero the
caller receives the raw captured streams (not whitespace-stripped as on
the success path) with the non-zero exit code; on a zero exit the
streams are stripped. -/
theorem c3_run_git_command_total (res : ProcResult) (check : Bool) :
    (run_git_command res check).2.2 = res.returncode ∧
    (check = true → res.returncode ≠ 0 →
      run_git_command res check = (res.stdout, res.stderr, res.returncode)) ∧
    (res.returncode = 0 →
      run_git_command res check =
        (py_strip res.stdout, py_strip res.stderr, res.returncode)) := by
  unfold run_git_command
  by_cases h : check = true ∧ res.returncode ≠ 0
  · rw [if_pos h]
    exact ⟨rfl, fun _ _ => rfl, fun h0 => absurd h0 h.2⟩
  · rw [if_neg h]
    exact ⟨rfl, fun hc hr => absurd ⟨hc, hr⟩ h, fun _ => rfl⟩

/-- C3 (witness): the amended theorem applied to one failing and one
succeeding concrete process outcome. -/
theorem c3_run_git_command_total_witness :
    run_git_command ⟨"a\n", "b\n", 2⟩ true = ("a\n", "b\n", 2) ∧
    run_git_command ⟨"a\n", "b\n", 0⟩ true = ("a", "b", 0) :=
  ⟨(c3_run_git_command_total ⟨"a\n", "b\n", 2⟩ true).2.1 rfl (by decide),
   (c3_run_git_command_total ⟨"a\n", "b\n", 0⟩ true).2.2 rfl⟩

/-- C4 (counterexample): a valid-JSON accounts file whose single record is
an object with no fields at all is returned by `load_github_accounts`
exactly as parsed, with no warning — not the empty set the claim
requires. -/
theorem c4_counterexample :
    load_github_accounts (.parsed (.arr [.obj []])) =
      (.arr [.obj []], false) ∧
    JValue.arr [JValue.obj []] ≠ JValue.arr [] := by
  refine ⟨rfl, fun h => ?_⟩
  injection h with h'
  exact List.cons_ne_nil _ _ h'

/-- C4 (amended): loading the account store never raises at startup: an
absent or unparsable accounts file yields the empty sequence with a
warning; but a file that parses as JSON is returned exactly as parsed,
without field validation and without a warning, even when its records are
missing required fields. -/
theorem c4_load_fails_soft :
    load_github_accounts .absent = (.arr [], true) ∧
    load_github_accounts .unparsable = (.arr [], true) ∧
    ∀ v, load_github_accounts (.parsed v) = (v, false) :=
  ⟨rfl, rfl, fun _ => rfl⟩

/-- C5 (counterexample): the label `"work "` derives alias
`"github-work"` while the claimed formula (without `strip()`) gives
`"github-work_"`; the blank label `" "` derives `"github-"`, which does
not match `^github-[a-z0-9_]+$`; and entering the label `"work"` twice
yields two identical aliases, so generated aliases are not unique. -/
theorem c5_counterexample :
    derive_alias "work " = "github-work" ∧
    spec_alias "work " = "github-work_" ∧
    provision_aliases ["work", "work"] = ["github-work", "github-work"] ∧
    ¬ (provision_aliases ["work", "work"]).Nodup ∧
    derive_alias " " = "github-" ∧
    alias_regex_match (derive_alias " ") = false := by decide

/-- C5 (amended): for every label, the derived alias is `"github-"`
followed by the lowercased, whitespace-stripped label with every
character outside `[a-z0-9]` replaced by `"_"`; hence every generated
alias matches `^github-[a-z0-9_]*$` (the suffix may be empty for a blank
label), and aliases coincide exactly when the sanitised labels coincide —
uniqueness across accounts is not enforced. -/
theorem c5_alias_charset (label : String) :
    ∃ rest, derive_alias label = "github-" ++ rest ∧
      rest.data.all (fun c => alias_keep c || decide (c = '_')) = true := by
  refine ⟨alias_sub (py_strip (py_lower label)), rfl, ?_⟩
  unfold alias_sub
  rw [show (String.mk ((py_strip (py_lower label)).data.map
      (fun c => if alias_keep c then c else '_'))).data =
      (py_strip (py_lower label)).data.map
        (fun c => if alias_keep c then c else '_') from rfl]
  rw [List.all_map]
  apply List.all_eq_true.mpr
  intro c _
  by_cases h : alias_keep c
  · simp [Function.comp, h]
  · simp [Function.comp, h]

/-- C6: the provisioning count loop only ever accepts 1, 2 or 3 — any
accepted count lies in `{1,2,3}` and drives exactly that many
account-setup iterations — while the out-of-range input `"4"` and a
non-numeric input are rejected and the loop re-prompts on the remaining
input. -/
theorem c6_account_count :
    (∀ inputs n, read_account_count inputs = some n →
        (n = 1 ∨ n = 2 ∨ n = 3) ∧
        (account_setup_iterations n).length = n.toNat) ∧
    (∀ rest, read_account_count ("4" :: rest) = read_account_count rest) ∧
    (∀ rest, read_account_count ("three" :: rest) =
      read_account_count rest) := by
  refine ⟨?_, ?_, ?_⟩
  · intro inputs
    induction inputs with
    | nil => intro n h; simp [read_account_count] at h
    | cons s rest ih =>
        intro n h
        simp only [read_account_count] at h
        split at h
        · split at h
          · injection h with h'
            subst h'
            rename_i hr
            refine ⟨by omega, ?_⟩
            unfold account_setup_iterations
            rw [List.length_map, List.length_range]
          · exact ih n h
        · exact ih n h
  · intro rest
    simp only [read_account_count]
    rw [show py_int "4" = some 4 from by decide]
    norm_num
  · intro rest
    simp only [read_account_count]
    rw [show py_int "three" = none from by decide]

/-- C6 (witness): the theorem applied to the input sequence
`["4", "three", "2"]`, whose first two entries are re-prompted and whose
third is accepted as the count 2. -/
theorem c6_account_count_witness :
    read_account_count ["4", "three", "2"] = some 2 ∧
    (((2 : Int) = 1 ∨ (2 : Int) = 2 ∨ (2 : Int) = 3) ∧
      (account_setup_iterations 2).length = (2 : Int).toNat) :=
  ⟨by decide, c6_account_count.1 ["4", "three", "2"] 2 (by decide)⟩

/-- C7: the key-generation step of provisioning is idempotent: when a key
file already exists at the alias's key path, the step leaves the file
system (and in particular that key file) completely unchanged and skips
generation; a key is generated only when no file exists at the path. -/
theorem c7_key_generation_idempotent :
    ∀ (fs : FS) (key_path new_key : String),
      ((fs.lookup key_path).isSome = true →
        key_gen_step fs key_path new_key = (fs, true)) ∧
      ((key_gen_step fs key_path new_key).2 = false →
        fs.lookup key_path = none) := by
  intro fs key_path new_key
  constructor
  · intro h
    unfold key_gen_step
    rw [if_pos h]
  · intro h
    by_cases hs : (fs.lookup key_path).isSome = true
    · unfold key_gen_step at h
      rw [if_pos hs] at h
      simp at h
    · exact Option.not_isSome_iff_eq_none.mp hs

/-- C7 (witness): the theorem applied to a file system already holding a
key for `github-work`; re-provisioning leaves it untouched. -/
theorem c7_key_generation_idempotent_witness :
    ((([("id_ed25519_github-work", "KEY")] : FS).lookup
        "id_ed25519_github-work").isSome = true) ∧
    key_gen_step [("id_ed25519_github-work", "KEY")] "id_ed25519_github-work"
        "NEWKEY" = ([("id_ed25519_github-work", "KEY")], true) :=
  ⟨by decide,
   (c7_key_generation_idempotent [("id_ed25519_github-work", "KEY")]
       "id_ed25519_github-work" "NEWKEY").1 (by decide)⟩

/-- C8 (counterexample): in a repository whose only remote is
`neworigin` — so no `origin` remote is configured — the push handler's
substring test `'origin' in remotes` succeeds, so no `origin` remote is
created (and the subsequent `set-url` fails silently): after preparation
there is still no `origin` remote and no origin URL, contradicting the
claim that one is created before any push attempt. -/
theorem c8_counterexample :
    "origin" ∉
      (⟨some "Alice", some "a@b.c", ["neworigin"], none⟩ : GitState).remotes ∧
    (push_prepare ⟨some "Alice", some "a@b.c", ["neworigin"], none⟩
        "github-work" "user" "e@x.com" "repo").remotes = ["neworigin"] ∧
    (push_prepare ⟨some "Alice", some "a@b.c", ["neworigin"], none⟩
        "github-work" "user" "e@x.com" "repo").originUrl = none := by decide

/-- C8 (amended): in the push handler with alias `github-work`, an
`origin` remote pointing at `git@github-work:<user>/<repo>.git` is
created before the push only when the string `"origin"` does not occur
anywhere in the `git remote` output (a remote name merely containing
`origin` as a substring suppresses creation); when an `origin` remote
exists with a different URL it is repositioned to the alias URL; and
local `user.name`/`user.email` are set before pushing only if currently
unset — an existing non-blank local identity is never overwritten. -/
theorem c8_push_prepare (st : GitState) (user email repo : String) :
    (origin_in_output (remote_listing st) = false →
      (push_prepare st "github-work" user email repo).remotes =
        st.remotes ++ ["origin"] ∧
      (push_prepare st "github-work" user email repo).originUrl =
        some (push_remote_url "github-work" user repo)) ∧
    (origin_in_output (remote_listing st) = true →
      "origin" ∈ st.remotes →
      origin_url_reading st ≠ push_remote_url "github-work" user repo →
      (push_prepare st "github-work" user email repo).originUrl =
        some (push_remote_url "github-work" user repo)) ∧
    (∀ v, st.userName = some v → py_strip v ≠ "" →
      (push_prepare st "github-work" user email repo).userName = some v) ∧
    (st.userName = none →
      (push_prepare st "github-work" user email repo).userName = some user) ∧
    (∀ v, st.userEmail = some v → py_strip v ≠ "" →
      (push_prepare st "github-work" user email repo).userEmail = some v) ∧
    (st.userEmail = none →
      (push_prepare st "github-work" user email repo).userEmail =
        some email) := by
  have hname := ensure_user_name_fields st user
  have hemail := ensure_user_email_fields (ensure_user_name st user) email
  have hrl : remote_listing (ensure_user_email (ensure_user_name st user) email)
      = remote_listing st :=
    remote_listing_congr (hemail.1.trans hname.1)
  have hou : origin_url_reading
        (ensure_user_email (ensure_user_name st user) email)
      = origin_url_reading st :=
    origin_url_reading_congr (hemail.2.1.trans hname.2.1)
  have hid := push_remote_setup_identity
    (ensure_user_email (ensure_user_name st user) email)
    (push_remote_url "github-work" user repo)
  refine ⟨?_, ?_, ?_, ?_, ?_, ?_⟩
  · intro h
    unfold push_prepare push_remote_setup
    rw [hrl, h]
    unfold git_remote_add_origin
    exact ⟨by simp [hemail.1, hname.1], by simp⟩
  · intro h hmem hne
    unfold push_prepare push_remote_setup
    rw [hrl, h, hou]
    rw [if_neg (by simp)]
    rw [if_pos hne]
    unfold git_remote_set_url_origin
    rw [if_pos (by rw [hemail.1, hname.1]; exact hmem)]
  · intro v hv hne
    unfold push_prepare
    rw [hid.1, hemail.2.2]
    unfold ensure_user_name
    rw [if_neg]
    · exact hv
    · rw [hv]
      simp only [config_get]
      push_neg
      refine ⟨by decide, ?_⟩
      rw [py_strip_idem]
      exact hne
  · intro hv
    unfold push_prepare
    rw [hid.1, hemail.2.2]
    unfold ensure_user_name
    rw [if_pos]
    rw [hv]
    simp [config_get]
  · intro v hv hne
    unfold push_prepare
    rw [hid.2]
    unfold ensure_user_email
    rw [if_neg]
    · exact hname.2.2.symm ▸ hv
    · rw [hname.2.2, hv]
      simp only [config_get]
      push_neg
      refine ⟨by decide, ?_⟩
      rw [py_strip_idem]
      exact hne
  · intro hv
    unfold push_prepare
    rw [hid.2]
    unfold ensure_user_email
    rw [if_pos]
    rw [hname.2.2, hv]
    simp [config_get]

/-- C8 (witness): the amended theorem applied to a repository with no
remotes and unset identity (origin created, identity filled in) and to a
repository with an `origin` remote at a stale URL and a configured
identity (origin repositioned, identity untouched). -/
theorem c8_push_prepare_witness :
    (push_remote_url "github-work" "user" "repo" =
      "git@github-work:user/repo.git") ∧
    (origin_in_output (remote_listing ⟨none, none, [], none⟩) = false) ∧
    ((push_prepare ⟨none, none, [], none⟩
        "github-work" "user" "e@x.com" "repo").remotes = ["origin"]) ∧
    ((push_prepare ⟨none, none, [], none⟩
        "github-work" "user" "e@x.com" "repo").originUrl =
      some (push_remote_url "github-work" "user" "repo")) ∧
    ((push_prepare ⟨none, none, [], none⟩
        "github-work" "user" "e@x.com" "repo").userName = some "user") ∧
    ((push_prepare ⟨none, none, [], none⟩
        "github-work" "user" "e@x.com" "repo").userEmail = some "e@x.com") ∧
    ((push_prepare
        ⟨some "Alice\n", some "a@b.c\n", ["origin"],
          some "git@github.com:old/old.git\n"⟩
        "github-work" "user" "e@x.com" "repo").originUrl =
      some (push_remote_url "github-work" "user" "repo")) ∧
    ((push_prepare
        ⟨some "Alice\n", some "a@b.c\n", ["origin"],
          some "git@github.com:old/old.git\n"⟩
        "github-work" "user" "e@x.com" "repo").userName = some "Alice\n") ∧
    ((push_prepare
        ⟨some "Alice\n", some "a@b.c\n", ["origin"],
          some "git@github.com:old/old.git\n"⟩
        "github-work" "user" "e@x.com" "repo").userEmail = some "a@b.c\n") :=
  ⟨by decide,
   by decide,
   ((c8_push_prepare ⟨none, none, [], none⟩ "user" "e@x.com" "repo").1
     (by decide)).1,
   ((c8_push_prepare ⟨none, none, [], none⟩ "user" "e@x.com" "repo").1
     (by decide)).2,
   (c8_push_prepare ⟨none, none, [], none⟩ "user" "e@x.com" "repo").2.2.2.1
     rfl,
   (c8_push_prepare ⟨none, none, [], none⟩
     "user" "e@x.com" "repo").2.2.2.2.2 rfl,
   (c8_push_prepare
     ⟨some "Alice\n", some "a@b.c\n", ["origin"],
       some "git@github.com:old/old.git\n"⟩ "user" "e@x.com" "repo").2.1
     (by decide) (by decide) (by decide),
   (c8_push_prepare
     ⟨some "Alice\n", some "a@b.c\n", ["origin"],
       some "git@github.com:old/old.git\n"⟩ "user" "e@x.com" "repo").2.2.1
     "Alice\n" rfl (by decide),
   (c8_push_prepare
     ⟨some "Alice\n", some "a@b.c\n", ["origin"],
       some "git@github.com:old/old.git\n"⟩ "user" "e@x.com"
     "repo").2.2.2.2.1 "a@b.c\n" rfl (by decide)⟩

/-- C9: `safe_input` traps a keyboard interrupt and exits 0 with a
farewell, but the uncommitted-changes prompt of `handle_pull` is a bare
`input()` call: an interrupt there propagates uncaught (raw traceback,
non-zero exit), both when hit immediately and after an invalid choice —
contradicting the claim that interrupts at every interactive prompt are
trapped with a clean exit 0. -/
theorem c9_pull_prompt_uncaught :
    safe_input .interrupt = .farewellExit0 ∧
    pull_choice_loop [.interrupt] = .uncaughtInterrupt ∧
    pull_choice_loop [.line "5", .interrupt] = .uncaughtInterrupt := by decide

/-- C10: in the repository-creation handler, a (stripped) entered name
failing the `^[a-zA-Z0-9._-]+$`-and-length-100 check is rejected and the
loop re-prompts with no availability request issued; every name for which
an API request is issued, and in particular every accepted name, passes
the check. -/
theorem c10_repo_name_validation :
    (∀ api s rest, valid_repo_name (py_strip s) = false →
        addremote_name_loop api (s :: rest) = addremote_name_loop api rest) ∧
    (∀ api inputs n, n ∈ (addremote_name_loop api inputs).2 →
        valid_repo_name n = true) ∧
    (∀ api inputs n, (addremote_name_loop api inputs).1 = some n →
        valid_repo_name n = true) := by
  refine ⟨?_, ?_, ?_⟩
  · intro api s rest h
    simp only [addremote_name_loop]
    rw [if_neg (by simp [h])]
  · intro api inputs
    induction inputs with
    | nil => intro n h; simp [addremote_name_loop] at h
    | cons s rest ih =>
        intro n h
        simp only [addremote_name_loop] at h
        split at h
        · rename_i hv
          split at h
          · split at h
            · dsimp only at h
              rcases List.mem_cons.mp h with h' | h'
              · subst h'; exact hv
              · exact ih n h'
            · split at h
              · dsimp only at h
                rw [List.mem_singleton.mp h]
                exact hv
              · dsimp only at h
                rcases List.mem_cons.mp h with h' | h'
                · subst h'; exact hv
                · exact ih n h'
          · dsimp only at h
            rcases List.mem_cons.mp h with h' | h'
            · subst h'; exact hv
            · exact ih n h'
        · exact ih n h
  · intro api inputs
    induction inputs with
    | nil => intro n h; simp [addremote_name_loop] at h
    | cons s rest ih =>
        intro n h
        simp only [addremote_name_loop] at h
        split at h
        · rename_i hv
          split at h
          · split at h
            · exact ih n h
            · split at h
              · dsimp only at h
                injection h with h'
                rw [← h']
                exact hv
              · exact ih n h
          · exact ih n h
        · exact ih n h

/-- C10 (witness): the theorem applied to the malformed name
`"bad name"` (rejected with no API request) followed by the available
name `"demo"` (requested once and accepted). -/
theorem c10_repo_name_validation_witness :
    valid_repo_name (py_strip "bad name") = false ∧
    addremote_name_loop demo_api ["bad name", "demo"] =
      addremote_name_loop demo_api ["demo"] ∧
    addremote_name_loop demo_api ["demo"] = (some "demo", ["demo"]) :=
  ⟨by decide,
   c10_repo_name_validation.1 demo_api "bad name" ["demo"] (by decide),
   by decide⟩

end GitGo
